import Mathlib

/-!
# onebot-tui: the NapCat adapter

A shallow embedding of `adapter/napcat_adapter.go` (event normalisation, the
reader loop, the action client and the correlation table) together with the
properties proved about it.

Conventions of the embedding.

* Go strings and byte slices are `String`; a `map[string]interface{}` is an
  association list searched from the front.
* A JSON number decoded into `interface{}` is a `float64`; every finite
  `float64` is a rational, so numbers are carried as `Rat`.
* `int64` values are `Int` with explicit wrap-around where the code can overflow.
* A goroutine that parks in a channel send is represented by the outcome
  `blocked`; the scheduling choices of the Go runtime (which error reaches a
  channel first, whether the timer wins a `select`) are explicit arguments.
-/

namespace OnebotTui

/-! ## Decoded JSON values -/

/-- The values `json.Unmarshal` stores into an `interface{}`. -/
inductive JVal where
  | null : JVal
  | bool (b : Bool) : JVal
  | num (f : Rat) : JVal
  | str (s : String) : JVal
  | arr (l : List JVal) : JVal
  | obj (m : List (String × JVal)) : JVal

/-- Go `map[string]interface{}`. -/
abbrev RawMap := List (String × JVal)

/-- Map index `raw[k]`: the value stored under `k`, `none` (the nil interface) when absent. -/
def mapIndex (k : String) : RawMap → Option JVal
  | [] => none
  | (k', v) :: rest => if k' = k then some v else mapIndex k rest

/-! ## Integers: `int64`, `strconv.FormatInt`, `strconv.ParseInt` -/

def minInt64 : Int := -9223372036854775808

def maxInt64 : Int := 9223372036854775807

def maxUint64 : Nat := 18446744073709551615

/-- Two's-complement wrap-around of an integer into the `int64` range. -/
def wrapInt64 (x : Int) : Int := (x + 9223372036854775808) % 18446744073709551616 - 9223372036854775808

/-- Go conversion `int64(f)` of a `float64`: the fraction is discarded (truncation
towards zero). For a value outside the `int64` range the Go specification leaves the
result to the implementation; the amd64 result (the minimum `int64`) is used. -/
def float64ToInt64 (f : Rat) : Int :=
  let t := Int.tdiv f.num f.den
  if minInt64 ≤ t ∧ t ≤ maxInt64 then t else minInt64

/-- Decimal digits of `n`, most significant first; `fuel` bounds the number of digits. -/
def fmtDigits : Nat → Nat → List Char
  | 0, _ => []
  | fuel + 1, n =>
    if n < 10 then [Nat.digitChar n] else fmtDigits fuel (n / 10) ++ [Nat.digitChar (n % 10)]

/-- The decimal representation of a natural number. -/
def formatUint (n : Nat) : List Char := fmtDigits (n + 1) n

/-- Go `strconv.FormatInt(i, 10)`. -/
def FormatInt (i : Int) : String :=
  match i with
  | Int.ofNat n => String.mk (formatUint n)
  | Int.negSucc n => String.mk ('-' :: formatUint (n + 1))

/-- The two errors of `strconv`: `ErrSyntax` and `ErrRange`. -/
inductive NumError where
  | invalid : NumError
  | outOfRange : NumError
  deriving DecidableEq, Repr

/-- The digit loop of `strconv.ParseUint(s, 10, 64)`. A character that is not a decimal
digit returns `(0, ErrSyntax)` at once; an overflow returns `(maxUint64, ErrRange)` at
once, without looking at the rest of the input. -/
def parseUintLoop : List Char → Nat → Nat × Option NumError
  | [], n => (n, none)
  | c :: cs, n =>
    if '0' ≤ c ∧ c ≤ '9' then
      if n ≥ maxUint64 / 10 + 1 then (maxUint64, some NumError.outOfRange)
      else
        let n1 := n * 10 + (c.toNat - '0'.toNat)
        if n1 > maxUint64 then (maxUint64, some NumError.outOfRange)
        else parseUintLoop cs n1
    else (0, some NumError.invalid)

/-- Go `strconv.ParseUint(s, 10, 64)`. -/
def ParseUint (s : List Char) : Nat × Option NumError :=
  match s with
  | [] => (0, some NumError.invalid)
  | _ => parseUintLoop s 0

/-- The part of `strconv.ParseInt` after the sign has been picked off. -/
def parseIntSigned (neg : Bool) (s : List Char) : Int × Option NumError :=
  match ParseUint s with
  | (_, some NumError.invalid) => (0, some NumError.invalid)
  | (un, _) =>
    if !neg && decide (un ≥ 9223372036854775808) then (maxInt64, some NumError.outOfRange)
    else if neg && decide (un > 9223372036854775808) then (minInt64, some NumError.outOfRange)
    else if neg then (-(un : Int), none) else ((un : Int), none)

/-- Go `strconv.ParseInt(s, 10, 64)`: the value and the error. -/
def ParseInt (s : String) : Int × Option NumError :=
  match s.data with
  | [] => (0, some NumError.invalid)
  | '+' :: rest => parseIntSigned false rest
  | '-' :: rest => parseIntSigned true rest
  | cs => parseIntSigned false cs

/-! ## Data model (`adapter/adapter.go`) -/

/-- Go `adapter.Message`; `Time` is the reading of the clock, in any unit. -/
structure Message where
  ChatID : String
  ChatType : String
  SenderID : String
  SenderName : String
  Content : String
  Time : Nat
  deriving DecidableEq, Repr

/-- Go `adapter.ChatInfo`; the field `Type` is spelled `Type_`. -/
structure ChatInfo where
  ID : String
  Name : String
  Type_ : String
  LatestMsg : String
  deriving DecidableEq, Repr

/-- The dynamic value of `onebotAction.Params`: nil, or one of the two anonymous
structs that `SendMessage` builds. -/
inductive Params where
  | none : Params
  | group (GroupID : Int) (Message : String) : Params
  | priv (UserID : Int) (Message : String) : Params
  deriving DecidableEq, Repr

/-- Go `onebotAction`. -/
structure onebotAction where
  Action : String
  Params : Params
  Echo : String
  deriving DecidableEq, Repr

/-- The errors the adapter returns: a failed connection write, a failed
`json.Unmarshal`, and the time-out of `sendRequest`. -/
inductive Err where
  | write (msg : String) : Err
  | decode (msg : String) : Err
  | timedOut (msg : String) : Err
  deriving DecidableEq, Repr

/-- One element of a `friendListResp.Data`. -/
structure FriendEntry where
  UserID : Int
  Nickname : String
  deriving DecidableEq, Repr

/-- One element of a `groupListResp.Data`. -/
structure GroupEntry where
  GroupID : Int
  GroupName : String
  deriving DecidableEq, Repr

/-! ## The adapter state -/

/-- A `chan []byte` made with capacity 1: the payloads sitting in its buffer. -/
abbrev RespChan := List String

/-- Go `NapCatAdapter`. `responseChannels` is the `sync.Map` from echo token to
response channel; `written` is the sequence of frames handed to
`conn.WriteMessage`, oldest first. -/
structure NapCatAdapter where
  written : List onebotAction
  responseChannels : List (String × RespChan)
  echoCounter : Int
  deriving DecidableEq, Repr

/-- Go `NewNapCatAdapter`. -/
def NewNapCatAdapter : NapCatAdapter :=
  { written := [], responseChannels := [], echoCounter := 0 }

/-- Go `sync.Map.Load`. -/
def syncLoad (k : String) : List (String × RespChan) → Option RespChan
  | [] => none
  | (k', v) :: rest => if k' = k then some v else syncLoad k rest

/-- Go `sync.Map.Delete`. -/
def syncDelete (k : String) : List (String × RespChan) → List (String × RespChan)
  | [] => []
  | (k', v) :: rest => if k' = k then syncDelete k rest else (k', v) :: syncDelete k rest

/-- Go `sync.Map.Store`. -/
def syncStore (k : String) (v : RespChan) (m : List (String × RespChan)) : List (String × RespChan) :=
  (k, v) :: syncDelete k m

/-- The result of a step that may park in a channel send. -/
inductive Outcome (σ : Type) where
  | ok (s : σ) : Outcome σ
  | blocked (s : σ) : Outcome σ
  deriving DecidableEq, Repr

/-! ## Type assertions in comma-ok form -/

/-- Go `v.(string)` in comma-ok form. -/
def asString : Option JVal → String × Bool
  | some (JVal.str s) => (s, true)
  | _ => ("", false)

/-- Go `v.(float64)` in comma-ok form. -/
def asFloat64 : Option JVal → Rat × Bool
  | some (JVal.num f) => (f, true)
  | _ => (0, false)

/-- Go `v.(map[string]interface{})` in comma-ok form. -/
def asMap : Option JVal → RawMap × Bool
  | some (JVal.obj m) => (m, true)
  | _ => ([], false)

/-! ## Event normalisation -/

/-- The zero value of `Message`. -/
def Message.zero : Message :=
  { ChatID := "", ChatType := "", SenderID := "", SenderName := "", Content := "", Time := 0 }

/-- The `Message` that `handleMessageEvent` has built when it reaches its final test. -/
def buildMessage (raw : RawMap) (now : Nat) : Message :=
  let msg : Message := { Message.zero with Time := now }
  let msg :=
    match asString (mapIndex "raw_message" raw) with
    | (message, true) => { msg with Content := message }
    | _ => msg
  let msg :=
    match asMap (mapIndex "sender" raw) with
    | (sender, true) =>
      match asString (mapIndex "nickname" sender) with
      | (nickname, true) => { msg with SenderName := nickname }
      | _ => msg
    | _ => msg
  let msg :=
    match asFloat64 (mapIndex "user_id" raw) with
    | (userID, true) => { msg with SenderID := FormatInt (float64ToInt64 userID) }
    | _ => msg
  match asString (mapIndex "message_type" raw) with
  | (msgType, true) =>
    let msg := { msg with ChatType := msgType }
    if msgType = "group" then
      match asFloat64 (mapIndex "group_id" raw) with
      | (groupID, true) => { msg with ChatID := FormatInt (float64ToInt64 groupID) }
      | _ => msg
    else { msg with ChatID := msg.SenderID }
  | _ => msg

/-- Go `NapCatAdapter.handleMessageEvent`. `msgChan` is the sequence of messages sent
on the channel so far, oldest first, and the result is that sequence after the call;
`now` is the value of `time.Now()`. -/
def handleMessageEvent (raw : RawMap) (msgChan : List Message) (now : Nat) : List Message :=
  let msg := buildMessage raw now
  if msg.ChatID ≠ "" then msgChan ++ [msg] else msgChan

/-! ## The reader loop -/

/-- Send `payload` on the channel stored under `echo`: it joins the buffer of the
first entry with that key. -/
def chanPush (echo : String) (payload : String) :
    List (String × RespChan) → List (String × RespChan)
  | [] => []
  | (k, ch) :: rest =>
    if k = echo then (k, ch ++ [payload]) :: rest else (k, ch) :: chanPush echo payload rest

/-- Lines 93 to 95 of `Listen`: load the channel registered under `echo` and send the
payload on it. The channel has capacity 1, so the send parks while a payload is
buffered; without a registered channel nothing happens. -/
def deliver (n : NapCatAdapter) (echo : String) (payload : String) : Outcome NapCatAdapter :=
  match syncLoad echo n.responseChannels with
  | some ch =>
    if ch.length < 1 then
      Outcome.ok { n with responseChannels := chanPush echo payload n.responseChannels }
    else Outcome.blocked n
  | none => Outcome.ok n

/-- What the goroutine of `Listen` owns: the adapter, the messages sent on `msgChan`
(oldest first) and whether `msgChan` has been closed. -/
structure ListenState where
  n : NapCatAdapter
  msgChan : List Message
  closed : Bool
  deriving DecidableEq, Repr

/-- One iteration of the loop of `Listen` after a successful `ReadMessage`.
`unmarshal` is `json.Unmarshal` into a `map[string]interface{}` (`none` is an error). -/
def listenStep (unmarshal : String → Option RawMap) (s : ListenState)
    (payload : String) (now : Nat) : Outcome ListenState :=
  match unmarshal payload with
  | none => Outcome.ok s
  | some raw =>
    match asString (mapIndex "echo" raw) with
    | (echo, ok) =>
      if ok && decide (echo ≠ "") then
        match deliver s.n echo payload with
        | Outcome.ok n' => Outcome.ok { s with n := n' }
        | Outcome.blocked _ => Outcome.blocked s
      else
        match asString (mapIndex "post_type" raw) with
        | (postType, true) =>
          if postType = "message" then
            Outcome.ok { s with msgChan := handleMessageEvent raw s.msgChan now }
          else Outcome.ok s
        | _ => Outcome.ok s

/-- Go `NapCatAdapter.Listen`: the loop runs over the frames that `ReadMessage`
returns (each with the clock reading at its arrival) and ends at the read error that
follows them, closing `msgChan`. A step that parks leaves the loop parked. -/
def Listen (unmarshal : String → Option RawMap) :
    ListenState → List (String × Nat) → Outcome ListenState
  | s, [] => Outcome.ok { s with closed := true }
  | s, (payload, now) :: rest =>
    match listenStep unmarshal s payload now with
    | Outcome.ok s' => Listen unmarshal s' rest
    | Outcome.blocked s' => Outcome.blocked s'

/-! ## The action client -/

/-- Go `NapCatAdapter.sendAction`: the frame is marshalled and handed to
`conn.WriteMessage`, whose error `writeErr` is returned. (`json.Marshal` cannot fail
on an `onebotAction` whose parameters are nil or a struct of an `int64` and a string.) -/
def sendAction (n : NapCatAdapter) (action : onebotAction) (writeErr : Option Err) :
    Option Err × NapCatAdapter :=
  (writeErr, { n with written := n.written ++ [action] })

/-- Go `NapCatAdapter.SendMessage`. -/
def SendMessage (n : NapCatAdapter) (chatID : String) (chatType : String) (message : String)
    (writeErr : Option Err) : Option Err × NapCatAdapter :=
  let action : onebotAction := { Action := "", Params := Params.none, Echo := "send_msg_" ++ chatID }
  let action :=
    if chatType = "group" then
      let groupID := (ParseInt chatID).1
      { action with Action := "send_group_msg", Params := Params.group groupID message }
    else
      let userID := (ParseInt chatID).1
      { action with Action := "send_private_msg", Params := Params.priv userID message }
  sendAction n action writeErr

/-- What the surroundings decide during one call of `sendRequest`: the error of the
connection write, the responses `(echo, payload)` that the reader loop dispatches
while the call waits in its `select`, and whether the timer case is taken although a
response is buffered. -/
structure ReqEnv where
  writeErr : Option Err
  arrivals : List (String × String)
  timerFirst : Bool

/-- The reader loop dispatching a sequence of responses; it stops at a send that parks. -/
def deliverAll : NapCatAdapter → List (String × String) → NapCatAdapter
  | n, [] => n
  | n, (echo, payload) :: rest =>
    match deliver n echo payload with
    | Outcome.ok n' => deliverAll n' rest
    | Outcome.blocked n' => n'

/-- The token that the next call of `sendRequest` generates. -/
def nextEcho (n : NapCatAdapter) : String :=
  "req_" ++ FormatInt (wrapInt64 (n.echoCounter + 1))

/-- Go `NapCatAdapter.sendRequest`. The deferred `Delete` runs on each of the three
returns. -/
def sendRequest (n : NapCatAdapter) (action : onebotAction) (env : ReqEnv) :
    Except Err String × NapCatAdapter :=
  let c := wrapInt64 (n.echoCounter + 1)
  let echo := "req_" ++ FormatInt c
  let action := { action with Echo := echo }
  let n := { n with echoCounter := c, responseChannels := syncStore echo [] n.responseChannels }
  match sendAction n action env.writeErr with
  | (some err, n) =>
    (Except.error err, { n with responseChannels := syncDelete echo n.responseChannels })
  | (none, n) =>
    let n := deliverAll n env.arrivals
    match syncLoad echo n.responseChannels, env.timerFirst with
    | some (respPayload :: _), false =>
      (Except.ok respPayload, { n with responseChannels := syncDelete echo n.responseChannels })
    | _, _ =>
      (Except.error (Err.timedOut ("API request timed out for action: " ++ action.Action)),
        { n with responseChannels := syncDelete echo n.responseChannels })

/-- The first goroutine of `GetChats`: the error it sends on `errs`, if any, and the
entries it appends to `friends`. -/
def friendsBranch (n : NapCatAdapter) (env : ReqEnv)
    (unmarshal : String → Except Err (List FriendEntry)) :
    (Option Err × List ChatInfo) × NapCatAdapter :=
  match sendRequest n { Action := "get_friend_list", Params := Params.none, Echo := "" } env with
  | (Except.error e, n) => ((some e, []), n)
  | (Except.ok respPayload, n) =>
    match unmarshal respPayload with
    | Except.error e => ((some e, []), n)
    | Except.ok data =>
      ((none, data.map fun f =>
        { ID := FormatInt f.UserID, Name := f.Nickname, Type_ := "private", LatestMsg := "" }), n)

/-- The second goroutine of `GetChats`. -/
def groupsBranch (n : NapCatAdapter) (env : ReqEnv)
    (unmarshal : String → Except Err (List GroupEntry)) :
    (Option Err × List ChatInfo) × NapCatAdapter :=
  match sendRequest n { Action := "get_group_list", Params := Params.none, Echo := "" } env with
  | (Except.error e, n) => ((some e, []), n)
  | (Except.ok respPayload, n) =>
    match unmarshal respPayload with
    | Except.error e => ((some e, []), n)
    | Except.ok data =>
      ((none, data.map fun g =>
        { ID := FormatInt g.GroupID, Name := g.GroupName, Type_ := "group", LatestMsg := "" }), n)

/-- The loop over the closed channel `errs` at the end of `GetChats`. -/
def firstError : List (Option Err) → Option Err
  | [] => none
  | some e :: _ => some e
  | none :: rest => firstError rest

/-- The two goroutines of `GetChats` up to `wg.Wait()`: what the friends goroutine and
the groups goroutine produced (the error sent on `errs`, the entries appended) and the
adapter afterwards. The goroutines are run one after the other, the friends one first
when `friendsFirst` is set. -/
def getChatsRun (n : NapCatAdapter) (envFriends envGroups : ReqEnv)
    (unmarshalFriends : String → Except Err (List FriendEntry))
    (unmarshalGroups : String → Except Err (List GroupEntry)) (friendsFirst : Bool) :
    (Option Err × List ChatInfo) × (Option Err × List ChatInfo) × NapCatAdapter :=
  if friendsFirst then
    match friendsBranch n envFriends unmarshalFriends with
    | (f, n1) =>
      match groupsBranch n1 envGroups unmarshalGroups with
      | (g, n2) => (f, g, n2)
  else
    match groupsBranch n envGroups unmarshalGroups with
    | (g, n1) =>
      match friendsBranch n1 envFriends unmarshalFriends with
      | (f, n2) => (f, g, n2)

/-- Go `NapCatAdapter.GetChats`: the result `(friends, groups, err)` and the adapter
afterwards. The errors reach the channel `errs` in the order in which the goroutines
ran. A nil slice is the empty list. -/
def GetChats (n : NapCatAdapter) (envFriends envGroups : ReqEnv)
    (unmarshalFriends : String → Except Err (List FriendEntry))
    (unmarshalGroups : String → Except Err (List GroupEntry)) (friendsFirst : Bool) :
    (List ChatInfo × List ChatInfo × Option Err) × NapCatAdapter :=
  match getChatsRun n envFriends envGroups unmarshalFriends unmarshalGroups friendsFirst with
  | (f, g, n') =>
    let errs := if friendsFirst then [f.1, g.1] else [g.1, f.1]
    match firstError errs with
    | some e => (([], [], some e), n')
    | none => ((f.2, g.2, none), n')

/-- The tokens generated by a sequence of calls of `sendRequest` on one adapter, in the
order of the calls. -/
def requestTokens : NapCatAdapter → List (onebotAction × ReqEnv) → List String
  | _, [] => []
  | n, (action, env) :: rest => nextEcho n :: requestTokens (sendRequest n action env).2 rest

/-! ## The daemon (`cmd/daemon/main.go`): shared state and control server -/

/-- Go `map[string]string`. -/
abbrev StrMap := List (String × String)

/-- The comma-ok map index `v, ok := m[k]`, as an option. -/
def strMapGet (k : String) : StrMap → Option String
  | [] => none
  | (k', v) :: rest => if k' = k then some v else strMapGet k rest

/-- Removal of every entry stored under `k`. -/
def strMapErase (k : String) : StrMap → StrMap
  | [] => []
  | (k', v) :: rest => if k' = k then strMapErase k rest else (k', v) :: strMapErase k rest

/-- The map assignment `m[k] = v`. -/
def strMapSet (k v : String) (m : StrMap) : StrMap :=
  (k, v) :: strMapErase k m

/-- Go `AppState`, without the mutex and the adapter handle `Bot`. -/
structure AppState where
  ActiveChatID : String
  ChatTypes : StrMap
  ChatNames : StrMap
  deriving DecidableEq, Repr

/-- Go `AppState.GetChatType`: the zero value `""` for a missing key. -/
def AppState.GetChatType (s : AppState) (chatID : String) : String :=
  (strMapGet chatID s.ChatTypes).getD ""

/-- Go `AppState.GetChatName`: the zero value `""` for a missing key. -/
def AppState.GetChatName (s : AppState) (chatID : String) : String :=
  (strMapGet chatID s.ChatNames).getD ""

/-- The two loops that both refresh paths run under the lock: every friend is entered as
`"private"` and every group as `"group"`, each with its name. -/
def fillCaches (state : AppState) (friends groups : List ChatInfo) : AppState :=
  let state := friends.foldl (fun st friend =>
    { st with ChatTypes := strMapSet friend.ID "private" st.ChatTypes,
              ChatNames := strMapSet friend.ID friend.Name st.ChatNames }) state
  groups.foldl (fun st group =>
    { st with ChatTypes := strMapSet group.ID "group" st.ChatTypes,
              ChatNames := strMapSet group.ID group.Name st.ChatNames }) state

/-- Go `populateCaches`. `attempts` are the results `(friends, groups, err)` of the
successive calls of `bot.GetChats()`; the loop retries until one has a nil error, and
`none` means that it is still retrying when the attempts are used up. The caches are
written into as they are: they are not emptied first. -/
def populateCaches (state : AppState) :
    List (List ChatInfo × List ChatInfo × Option Err) → Option AppState
  | [] => none
  | (friends, groups, none) :: _ => some (fillCaches state friends groups)
  | (_, _, some _) :: rest => populateCaches state rest

/-- The handler of `/get_chats`, given the result `(friends, groups, err)` of
`bot.GetChats()`: the state afterwards and the response, which is the error (status 500)
or the list `append(groups, friends...)`. -/
def getChatsHandler (state : AppState) (result : List ChatInfo × List ChatInfo × Option Err) :
    AppState × Except Err (List ChatInfo) :=
  match result with
  | (_, _, some err) => (state, Except.error err)
  | (friends, groups, none) =>
    let state := { state with ChatTypes := [], ChatNames := [] }
    (fillCaches state friends groups, Except.ok (groups ++ friends))

/-- What the handler of `/set_active_chat` leaves behind: the state, the
`ActiveChatChangedMsg` sent to the TUI (if any) as `(ID, Name)`, and the HTTP status. -/
structure SetActiveChatResult where
  state : AppState
  sent : Option (String × String)
  status : Nat
  deriving DecidableEq, Repr

/-- The handler of `/set_active_chat` for the query parameters `id` and `name`. -/
def setActiveChatHandler (state : AppState) (id name : String) : SetActiveChatResult :=
  if id = "" then { state := state, sent := none, status := 400 }
  else
    let name := if name = "" then id else name
    let state := { state with ActiveChatID := id }
    { state := state, sent := some (id, name), status := 200 }

/-! ## Decimal formatting and type assertions: basic facts -/

theorem float64ToInt64_intCast (i : Int) (h : minInt64 ≤ i ∧ i ≤ maxInt64) :
    float64ToInt64 (i : Rat) = i := by
  simp [float64ToInt64, h]

theorem fmtDigits_ne_nil (fuel n : Nat) : fmtDigits (fuel + 1) n ≠ [] := by
  unfold fmtDigits
  split <;> simp

theorem FormatInt_ne_empty (i : Int) : FormatInt i ≠ "" := by
  intro h
  have h' := congrArg String.data h
  cases i with
  | ofNat n => exact fmtDigits_ne_nil n n (by simpa [FormatInt, formatUint] using h')
  | negSucc n => simp [FormatInt] at h'

theorem asString_snd_false (v : Option JVal) (s : String) (h : asString v = (s, false)) : s = "" := by
  unfold asString at h
  split at h <;> simp_all

theorem asMap_snd_false (v : Option JVal) (m : RawMap) (h : asMap v = (m, false)) : m = [] := by
  unfold asMap at h
  split at h <;> simp_all

/-- The fields of the message that `handleMessageEvent` builds, one by one. -/
theorem buildMessage_eq (raw : RawMap) (now : Nat) :
    buildMessage raw now =
      { ChatID :=
          if (asString (mapIndex "message_type" raw)).2 = true then
            if (asString (mapIndex "message_type" raw)).1 = "group" then
              if (asFloat64 (mapIndex "group_id" raw)).2 = true then
                FormatInt (float64ToInt64 (asFloat64 (mapIndex "group_id" raw)).1)
              else ""
            else if (asFloat64 (mapIndex "user_id" raw)).2 = true then
              FormatInt (float64ToInt64 (asFloat64 (mapIndex "user_id" raw)).1)
            else ""
          else ""
        ChatType := (asString (mapIndex "message_type" raw)).1
        SenderID :=
          if (asFloat64 (mapIndex "user_id" raw)).2 = true then
            FormatInt (float64ToInt64 (asFloat64 (mapIndex "user_id" raw)).1)
          else ""
        SenderName := (asString (mapIndex "nickname" (asMap (mapIndex "sender" raw)).1)).1
        Content := (asString (mapIndex "raw_message" raw)).1
        Time := now } := by
  rcases hc : asString (mapIndex "raw_message" raw) with ⟨c, _ | _⟩ <;>
  rcases hs : asMap (mapIndex "sender" raw) with ⟨sender, _ | _⟩ <;>
  rcases hn : asString (mapIndex "nickname" sender) with ⟨nick, _ | _⟩ <;>
  rcases hu : asFloat64 (mapIndex "user_id" raw) with ⟨u, _ | _⟩ <;>
  rcases ht : asString (mapIndex "message_type" raw) with ⟨t, _ | _⟩ <;>
  rcases hg : asFloat64 (mapIndex "group_id" raw) with ⟨g, _ | _⟩ <;>
  simp only [buildMessage, hc, hs, hn, hu, ht, hg, Message.zero] <;>
  (try have hc' := asString_snd_false _ _ hc) <;>
  (try have hn' := asString_snd_false _ _ hn) <;>
  (try have ht' := asString_snd_false _ _ ht) <;>
  (try have hs' := asMap_snd_false _ _ hs) <;>
  (try subst hc') <;> (try subst hn') <;> (try subst ht') <;> (try subst hs') <;>
  (try split) <;> simp_all [mapIndex, asString]


/-- C1: for an event whose `user_id` is a number `u`, `handleMessageEvent` sends one message
whose sender id is the decimal form of `u` (of `int64(u)`, which is `u` itself for an
integer of the `int64` range), whose sender name is `sender.nickname`, whose content is
`raw_message` and whose chat type is `message_type`; its chat id is the sender id for a
private event and the decimal form of `group_id` for a group event, whatever the sender
id is. -/
theorem handleMessageEvent_reference (raw : RawMap) (msgChan : List Message) (now : Nat) (u : Rat)
    (hu : mapIndex "user_id" raw = some (JVal.num u)) :
    (∀ i : Int, minInt64 ≤ i ∧ i ≤ maxInt64 → float64ToInt64 (i : Rat) = i) ∧
    (mapIndex "message_type" raw = some (JVal.str "private") →
      handleMessageEvent raw msgChan now = msgChan ++
        [{ ChatID := FormatInt (float64ToInt64 u), ChatType := "private",
           SenderID := FormatInt (float64ToInt64 u),
           SenderName := (asString (mapIndex "nickname" (asMap (mapIndex "sender" raw)).1)).1,
           Content := (asString (mapIndex "raw_message" raw)).1, Time := now }]) ∧
    (∀ g : Rat, mapIndex "message_type" raw = some (JVal.str "group") →
      mapIndex "group_id" raw = some (JVal.num g) →
      handleMessageEvent raw msgChan now = msgChan ++
        [{ ChatID := FormatInt (float64ToInt64 g), ChatType := "group",
           SenderID := FormatInt (float64ToInt64 u),
           SenderName := (asString (mapIndex "nickname" (asMap (mapIndex "sender" raw)).1)).1,
           Content := (asString (mapIndex "raw_message" raw)).1, Time := now }]) := by
  refine ⟨float64ToInt64_intCast, fun ht => ?_, fun g ht hg => ?_⟩
  · have hne := FormatInt_ne_empty (float64ToInt64 u)
    simp [handleMessageEvent, buildMessage_eq, hu, ht, asString, asFloat64, hne]
  · have hne := FormatInt_ne_empty (float64ToInt64 g)
    simp [handleMessageEvent, buildMessage_eq, hu, ht, hg, asString, asFloat64, hne]

/-- Scenarios A and B of the specification: a private event from user 123 and a group event
of group 456. -/
theorem handleMessageEvent_reference_witness :
    handleMessageEvent
        [("message_type", JVal.str "private"), ("user_id", JVal.num 123),
          ("raw_message", JVal.str "hi"), ("sender", JVal.obj [("nickname", JVal.str "Bob")])] [] 0 =
      [{ ChatID := "123", ChatType := "private", SenderID := "123", SenderName := "Bob",
         Content := "hi", Time := 0 }] ∧
    handleMessageEvent
        [("message_type", JVal.str "group"), ("group_id", JVal.num 456), ("user_id", JVal.num 123),
          ("raw_message", JVal.str "hey")] [] 0 =
      [{ ChatID := "456", ChatType := "group", SenderID := "123", SenderName := "",
         Content := "hey", Time := 0 }] :=
  ⟨(handleMessageEvent_reference
      [("message_type", JVal.str "private"), ("user_id", JVal.num 123),
        ("raw_message", JVal.str "hi"), ("sender", JVal.obj [("nickname", JVal.str "Bob")])] [] 0 123
      rfl).2.1 rfl,
   (handleMessageEvent_reference
      [("message_type", JVal.str "group"), ("group_id", JVal.num 456), ("user_id", JVal.num 123),
        ("raw_message", JVal.str "hey")] [] 0 123
      rfl).2.2 456 rfl rfl⟩

/-! ## `strconv`: parsing what was formatted -/

theorem digitChar_spec (d : Nat) (h : d < 10) :
    ('0' ≤ Nat.digitChar d ∧ Nat.digitChar d ≤ '9') ∧
      (Nat.digitChar d).toNat - '0'.toNat = d ∧
      Nat.digitChar d ≠ '+' ∧ Nat.digitChar d ≠ '-' := by
  interval_cases d <;> decide

theorem parseUintLoop_append (l1 l2 : List Char) (a : Nat) :
    parseUintLoop (l1 ++ l2) a =
      match parseUintLoop l1 a with
      | (a', none) => parseUintLoop l2 a'
      | r => r := by
  induction l1 generalizing a with
  | nil => simp [parseUintLoop]
  | cons c cs ih =>
    simp only [List.cons_append, parseUintLoop]
    split
    · split
      · rfl
      · split
        · rfl
        · exact ih _
    · rfl

theorem parseUintLoop_fmtDigits (fuel : Nat) :
    ∀ n : Nat, n < fuel → n ≤ maxUint64 → parseUintLoop (fmtDigits fuel n) 0 = (n, none) := by
  induction fuel with
  | zero => intro n h; omega
  | succ fuel ih =>
    intro n hn hmax
    unfold fmtDigits
    have hd := digitChar_spec (n % 10) (Nat.mod_lt _ (by decide))
    simp only [maxUint64] at hmax
    split
    · rename_i hlt
      have hm : n % 10 = n := Nat.mod_eq_of_lt hlt
      rw [hm] at hd
      simp only [parseUintLoop, hd.1, and_self, if_true, hd.2.1, maxUint64]
      simp
      omega
    · rename_i hge
      rw [parseUintLoop_append, ih (n / 10) (by omega) (by simp only [maxUint64]; omega)]
      simp only [parseUintLoop, hd.1, and_self, if_true, hd.2.1, maxUint64]
      have h1 : ¬ (n / 10 ≥ 18446744073709551615 / 10 + 1) := by omega
      have h2 : n / 10 * 10 + n % 10 = n := by omega
      simp only [h1, if_false, h2]
      have h3 : ¬ (n > 18446744073709551615) := by omega
      simp [h3]

theorem fmtDigits_head (fuel : Nat) :
    ∀ n : Nat, ∃ d rest, d < 10 ∧ fmtDigits (fuel + 1) n = Nat.digitChar d :: rest := by
  induction fuel with
  | zero =>
    intro n
    unfold fmtDigits
    split
    · exact ⟨n, [], by omega, rfl⟩
    · exact ⟨n % 10, [], Nat.mod_lt _ (by decide), by simp [fmtDigits]⟩
  | succ fuel ih =>
    intro n
    unfold fmtDigits
    split
    · exact ⟨n, [], by omega, rfl⟩
    · obtain ⟨d, rest, hd, h⟩ := ih (n / 10)
      exact ⟨d, rest ++ [Nat.digitChar (n % 10)], hd, by rw [h]; rfl⟩

theorem ParseUint_formatUint (n : Nat) (h : n ≤ maxUint64) : ParseUint (formatUint n) = (n, none) := by
  obtain ⟨d, rest, _, hh⟩ := fmtDigits_head n n
  have := parseUintLoop_fmtDigits (n + 1) n (by omega) h
  unfold ParseUint formatUint
  rw [hh] at this ⊢
  simpa using this

/-- Parsing the decimal form of an `int64` gives the value back, without error. -/
theorem ParseInt_FormatInt (i : Int) (h : minInt64 ≤ i ∧ i ≤ maxInt64) :
    ParseInt (FormatInt i) = (i, none) := by
  simp only [minInt64, maxInt64] at h
  cases i with
  | ofNat n =>
    have hn : n ≤ 9223372036854775807 := by
      have := h.2
      rw [Int.ofNat_eq_coe] at this
      omega
    obtain ⟨d, rest, hd, hh⟩ := fmtDigits_head n n
    have hc := digitChar_spec d hd
    have hp := ParseUint_formatUint n (by simp only [maxUint64]; omega)
    have hdata : (FormatInt (Int.ofNat n)).data = Nat.digitChar d :: rest := by
      simp [FormatInt, formatUint, hh]
    unfold ParseInt
    rw [hdata]
    split
    · simp_all
    · simp_all
    · simp_all
    · rw [← hh, ← formatUint]
      simp only [parseIntSigned, hp]
      have : ¬ (n ≥ 9223372036854775808) := by omega
      simp [this]
  | negSucc n =>
    have hn : n + 1 ≤ 9223372036854775808 := by
      have := h.1
      rw [Int.negSucc_eq] at this
      omega
    have hp := ParseUint_formatUint (n + 1) (by simp only [maxUint64]; omega)
    have hdata : (FormatInt (Int.negSucc n)).data = '-' :: formatUint (n + 1) := by
      simp [FormatInt]
    unfold ParseInt
    rw [hdata]
    simp only [parseIntSigned, hp]
    have : ¬ (n + 1 > 9223372036854775808) := by omega
    simp [this, Int.negSucc_eq]

theorem FormatInt_injective_on (i j : Int) (hi : minInt64 ≤ i ∧ i ≤ maxInt64)
    (hj : minInt64 ≤ j ∧ j ≤ maxInt64) (h : FormatInt i = FormatInt j) : i = j := by
  have := ParseInt_FormatInt i hi
  rw [h, ParseInt_FormatInt j hj] at this
  exact (congrArg Prod.fst this).symm

/-! ## The correlation table: basic facts -/

theorem syncLoad_chanPush_self (echo payload : String) (m : List (String × RespChan))
    (ch : RespChan) (h : syncLoad echo m = some ch) :
    syncLoad echo (chanPush echo payload m) = some (ch ++ [payload]) := by
  induction m with
  | nil => simp [syncLoad] at h
  | cons e rest ih =>
    obtain ⟨k, v⟩ := e
    by_cases hk : k = echo
    · simp_all [syncLoad, chanPush]
    · simp_all [syncLoad, chanPush]

theorem syncLoad_chanPush_other (echo payload k : String) (m : List (String × RespChan))
    (hk : k ≠ echo) : syncLoad k (chanPush echo payload m) = syncLoad k m := by
  induction m with
  | nil => rfl
  | cons e rest ih =>
    obtain ⟨k', v⟩ := e
    by_cases h1 : k' = echo
    · have h2 : ¬ k' = k := fun h => hk (h ▸ h1)
      simp only [chanPush, h1, if_true, syncLoad]
      rw [h1] at h2
      simp only [h2, if_false]
    · by_cases h2 : k' = k
      · subst h2
        simp only [chanPush, h1, if_false, syncLoad, if_true]
      · simp only [chanPush, h1, if_false, syncLoad, h2, ih]

theorem asString_snd_true (v : Option JVal) (t : String) (h : asString v = (t, true)) :
    v = some (JVal.str t) := by
  unfold asString at h
  split at h
  · simp only [Prod.mk.injEq] at h
    rw [h.1]
  · simp at h

theorem asString_no_token (v : Option JVal)
    (he : ∀ echo : String, v = some (JVal.str echo) → echo = "") (e : String) (b : Bool)
    (h : asString v = (e, b)) : (b && decide (e ≠ "")) = false := by
  cases b with
  | false => rfl
  | true => simp [he e (asString_snd_true v e h)]

theorem syncLoad_syncDelete_self (k : String) (m : List (String × RespChan)) :
    syncLoad k (syncDelete k m) = none := by
  induction m with
  | nil => rfl
  | cons e rest ih =>
    obtain ⟨k', v⟩ := e
    by_cases h : k' = k <;> simp [syncDelete, syncLoad, h, ih]

/-! ## The reader loop -/

/-- C2: the dispatch of a decoded frame. With a non-empty string `echo` the frame is
handled as a response only: without a registered channel the state is unchanged, with a
registered channel that has room the payload joins that channel and nothing else changes
(while a payload is still buffered there the send parks); no message is forwarded.
Otherwise a frame whose `post_type` is `"message"` goes through `handleMessageEvent`, and
any other frame leaves the state unchanged. -/
theorem listenStep_dispatch (unmarshal : String → Option RawMap) (s : ListenState)
    (payload : String) (now : Nat) (raw : RawMap) (hraw : unmarshal payload = some raw) :
    (∀ echo : String, mapIndex "echo" raw = some (JVal.str echo) → echo ≠ "" →
      (syncLoad echo s.n.responseChannels = none →
        listenStep unmarshal s payload now = Outcome.ok s) ∧
      (syncLoad echo s.n.responseChannels = some [] →
        ∃ s', listenStep unmarshal s payload now = Outcome.ok s' ∧
          s'.msgChan = s.msgChan ∧ s'.closed = s.closed ∧
          s'.n.written = s.n.written ∧ s'.n.echoCounter = s.n.echoCounter ∧
          syncLoad echo s'.n.responseChannels = some [payload] ∧
          ∀ k : String, k ≠ echo →
            syncLoad k s'.n.responseChannels = syncLoad k s.n.responseChannels) ∧
      (∀ p ps, syncLoad echo s.n.responseChannels = some (p :: ps) →
        listenStep unmarshal s payload now = Outcome.blocked s)) ∧
    ((∀ echo : String, mapIndex "echo" raw = some (JVal.str echo) → echo = "") →
      (mapIndex "post_type" raw = some (JVal.str "message") →
        listenStep unmarshal s payload now =
          Outcome.ok { s with msgChan := handleMessageEvent raw s.msgChan now }) ∧
      (mapIndex "post_type" raw ≠ some (JVal.str "message") →
        listenStep unmarshal s payload now = Outcome.ok s)) := by
  refine ⟨fun echo he hne => ⟨fun hl => ?_, fun hl => ?_, fun p ps hl => ?_⟩, fun he => ⟨fun hp => ?_, fun hp => ?_⟩⟩
  · simp [listenStep, hraw, he, asString, hne, deliver, hl]
  · refine ⟨{ s with n := { s.n with responseChannels := chanPush echo payload s.n.responseChannels } }, ?_, rfl, rfl, rfl, rfl, ?_, ?_⟩
    · simp [listenStep, hraw, he, asString, hne, deliver, hl]
    · simpa using syncLoad_chanPush_self echo payload _ _ hl
    · intro k hk
      exact syncLoad_chanPush_other echo payload k _ hk
  · simp [listenStep, hraw, he, asString, hne, deliver, hl]
  · rcases hx : asString (mapIndex "echo" raw) with ⟨e, b⟩
    have hcond := asString_no_token _ he e b hx
    simp only [listenStep, hraw, hx, hcond]
    simp [hp, asString]
  · rcases hx : asString (mapIndex "echo" raw) with ⟨e, b⟩
    have hcond := asString_no_token _ he e b hx
    simp only [listenStep, hraw, hx, hcond]
    rcases hy : asString (mapIndex "post_type" raw) with ⟨t, _ | _⟩
    · simp
    · have : t ≠ "message" := by
        intro ht
        apply hp
        rw [asString_snd_true _ _ hy, ht]
      simp [this]

/-- A frame that carries both a registered token and `post_type` `"message"` completes the
pending request and forwards no message. -/
theorem listenStep_dispatch_witness :
    ∃ s', listenStep
        (fun _ => some [("echo", JVal.str "req_1"), ("post_type", JVal.str "message"),
          ("message_type", JVal.str "private"), ("user_id", JVal.num 123)])
        { n := { written := [], responseChannels := [("req_1", [])], echoCounter := 1 },
          msgChan := [], closed := false } "frame" 0 = Outcome.ok s' ∧
      s'.msgChan = [] ∧ s'.closed = false ∧ s'.n.written = [] ∧ s'.n.echoCounter = 1 ∧
      syncLoad "req_1" s'.n.responseChannels = some ["frame"] ∧
      ∀ k : String, k ≠ "req_1" → syncLoad k s'.n.responseChannels =
        syncLoad k [("req_1", [])] :=
  ((listenStep_dispatch
      (fun _ => some [("echo", JVal.str "req_1"), ("post_type", JVal.str "message"),
        ("message_type", JVal.str "private"), ("user_id", JVal.num 123)])
      { n := { written := [], responseChannels := [("req_1", [])], echoCounter := 1 },
        msgChan := [], closed := false } "frame" 0 _ rfl).1 "req_1" rfl (by decide)).2.1 rfl

/-- C3: the reader loop over a sequence of frames ends in the same state (the same messages
forwarded in the same order, the same payloads in the same response channels) as over that
sequence without the frames that fail to decode. -/
theorem Listen_skips_undecodable (unmarshal : String → Option RawMap) (s : ListenState)
    (frames : List (String × Nat)) :
    Listen unmarshal s frames =
      Listen unmarshal s (frames.filter fun f => (unmarshal f.1).isSome) := by
  induction frames generalizing s with
  | nil => rfl
  | cons f rest ih =>
    obtain ⟨payload, now⟩ := f
    cases hd : unmarshal payload with
    | none =>
      have hstep : listenStep unmarshal s payload now = Outcome.ok s := by
        simp [listenStep, hd]
      simp only [List.filter, hd, Option.isSome, Listen, hstep]
      exact ih s
    | some raw =>
      simp only [List.filter, hd, Option.isSome, Listen]
      cases listenStep unmarshal s payload now with
      | ok s' => exact ih s'
      | blocked s' => rfl

/-! ## The action client -/

/-- C4: `SendMessage` with the decimal form of an `int64` value `g` as chat id and chat type
`"group"` hands exactly one frame to the connection: action `send_group_msg` with
parameters `group_id = g` and `message = m`; it returns the error of that write. -/
theorem SendMessage_group (n : NapCatAdapter) (g : Int) (m : String) (writeErr : Option Err)
    (hg : minInt64 ≤ g ∧ g ≤ maxInt64) :
    SendMessage n (FormatInt g) "group" m writeErr =
      (writeErr, { n with written := n.written ++
        [{ Action := "send_group_msg", Params := Params.group g m,
           Echo := "send_msg_" ++ FormatInt g }] }) := by
  simp [SendMessage, sendAction, ParseInt_FormatInt g hg]

/-- Scenario D of the specification. -/
theorem SendMessage_group_witness :
    SendMessage NewNapCatAdapter "789" "group" "hello" none =
      (none, { written := [{ Action := "send_group_msg", Params := Params.group 789 "hello",
                             Echo := "send_msg_789" }],
               responseChannels := [], echoCounter := 0 }) :=
  SendMessage_group NewNapCatAdapter 789 "hello" none (by decide)

/-- C5, as stated, fails: with the chat type `"channel"` the call returns no error and hands
a `send_private_msg` frame to the connection. -/
theorem SendMessage_unknown_chatType_counterexample :
    ¬ (∀ (n : NapCatAdapter) (chatID chatType message : String) (writeErr : Option Err),
        chatType ≠ "group" → chatType ≠ "private" →
        (SendMessage n chatID chatType message writeErr).1 ≠ none ∧
        (SendMessage n chatID chatType message writeErr).2.written = n.written) := by
  intro h
  exact (h NewNapCatAdapter "1" "channel" "x" none (by decide) (by decide)).1 (by decide)

/-- C5, amended: for every chat type other than `"group"`, `SendMessage` hands exactly one
frame to the connection, a `send_private_msg` whose `user_id` is the parsed chat id, and
returns the error of that write; no chat type is refused. -/
theorem SendMessage_not_group (n : NapCatAdapter) (chatID chatType message : String)
    (writeErr : Option Err) (h : chatType ≠ "group") :
    SendMessage n chatID chatType message writeErr =
      (writeErr, { n with written := n.written ++
        [{ Action := "send_private_msg", Params := Params.priv (ParseInt chatID).1 message,
           Echo := "send_msg_" ++ chatID }] }) := by
  simp [SendMessage, sendAction, h]

/-- A chat type that is neither `"group"` nor `"private"` is sent as a private message. -/
theorem SendMessage_not_group_witness :
    SendMessage NewNapCatAdapter "42" "guild" "hi" none =
      (none, { written := [{ Action := "send_private_msg", Params := Params.priv 42 "hi",
                             Echo := "send_msg_42" }],
               responseChannels := [], echoCounter := 0 }) :=
  SendMessage_not_group NewNapCatAdapter "42" "guild" "hi" none (by decide)

theorem friendsBranch_ok_iff (n : NapCatAdapter) (env : ReqEnv)
    (unmarshal : String → Except Err (List FriendEntry)) :
    (friendsBranch n env unmarshal).1.1 = none ↔
      ∃ respPayload data,
        (sendRequest n { Action := "get_friend_list", Params := Params.none, Echo := "" } env).1 =
          Except.ok respPayload ∧ unmarshal respPayload = Except.ok data := by
  unfold friendsBranch
  rcases hr : sendRequest n { Action := "get_friend_list", Params := Params.none, Echo := "" } env
    with ⟨r, n'⟩
  cases r with
  | error e => simp
  | ok p =>
    cases hu : unmarshal p with
    | error e => simp [hu]
    | ok data => simp [hu]

theorem groupsBranch_ok_iff (n : NapCatAdapter) (env : ReqEnv)
    (unmarshal : String → Except Err (List GroupEntry)) :
    (groupsBranch n env unmarshal).1.1 = none ↔
      ∃ respPayload data,
        (sendRequest n { Action := "get_group_list", Params := Params.none, Echo := "" } env).1 =
          Except.ok respPayload ∧ unmarshal respPayload = Except.ok data := by
  unfold groupsBranch
  rcases hr : sendRequest n { Action := "get_group_list", Params := Params.none, Echo := "" } env
    with ⟨r, n'⟩
  cases r with
  | error e => simp
  | ok p =>
    cases hu : unmarshal p with
    | error e => simp [hu]
    | ok data => simp [hu]

/-- C6: `GetChats` returns a nil error exactly when neither goroutine reported an error, and
then it returns the two lists the goroutines built; otherwise the error it returns is one
that a goroutine reported and both returned lists are nil. A goroutine reports no error
exactly when its `sendRequest` returned a payload and that payload decoded. -/
theorem GetChats_all_or_nothing (n : NapCatAdapter) (envFriends envGroups : ReqEnv)
    (unmarshalFriends : String → Except Err (List FriendEntry))
    (unmarshalGroups : String → Except Err (List GroupEntry)) (friendsFirst : Bool) :
    ((GetChats n envFriends envGroups unmarshalFriends unmarshalGroups friendsFirst).1.2.2 = none ↔
      (getChatsRun n envFriends envGroups unmarshalFriends unmarshalGroups friendsFirst).1.1 = none ∧
      (getChatsRun n envFriends envGroups unmarshalFriends unmarshalGroups friendsFirst).2.1.1 = none) ∧
    ((GetChats n envFriends envGroups unmarshalFriends unmarshalGroups friendsFirst).1.2.2 = none →
      (GetChats n envFriends envGroups unmarshalFriends unmarshalGroups friendsFirst).1 =
        ((getChatsRun n envFriends envGroups unmarshalFriends unmarshalGroups friendsFirst).1.2,
         (getChatsRun n envFriends envGroups unmarshalFriends unmarshalGroups friendsFirst).2.1.2,
         none)) ∧
    (∀ e : Err,
      (GetChats n envFriends envGroups unmarshalFriends unmarshalGroups friendsFirst).1.2.2 = some e →
      ((getChatsRun n envFriends envGroups unmarshalFriends unmarshalGroups friendsFirst).1.1 = some e ∨
       (getChatsRun n envFriends envGroups unmarshalFriends unmarshalGroups friendsFirst).2.1.1 = some e) ∧
      (GetChats n envFriends envGroups unmarshalFriends unmarshalGroups friendsFirst).1.1 = [] ∧
      (GetChats n envFriends envGroups unmarshalFriends unmarshalGroups friendsFirst).1.2.1 = []) ∧
    (∃ nf ng : NapCatAdapter,
      (getChatsRun n envFriends envGroups unmarshalFriends unmarshalGroups friendsFirst).1 =
        (friendsBranch nf envFriends unmarshalFriends).1 ∧
      (getChatsRun n envFriends envGroups unmarshalFriends unmarshalGroups friendsFirst).2.1 =
        (groupsBranch ng envGroups unmarshalGroups).1) ∧
    (∀ (n' : NapCatAdapter) (env : ReqEnv),
      ((friendsBranch n' env unmarshalFriends).1.1 = none ↔
        ∃ respPayload data,
          (sendRequest n' { Action := "get_friend_list", Params := Params.none, Echo := "" } env).1 =
            Except.ok respPayload ∧ unmarshalFriends respPayload = Except.ok data) ∧
      ((groupsBranch n' env unmarshalGroups).1.1 = none ↔
        ∃ respPayload data,
          (sendRequest n' { Action := "get_group_list", Params := Params.none, Echo := "" } env).1 =
            Except.ok respPayload ∧ unmarshalGroups respPayload = Except.ok data)) := by
  refine ⟨?_, ?_, ?_, ?_, fun n' env => ⟨friendsBranch_ok_iff _ _ _, groupsBranch_ok_iff _ _ _⟩⟩
  case refine_4 =>
    cases friendsFirst
    · exact ⟨(groupsBranch n envGroups unmarshalGroups).2, n, rfl, rfl⟩
    · exact ⟨n, (friendsBranch n envFriends unmarshalFriends).2, rfl, rfl⟩
  all_goals
    unfold GetChats
    rcases getChatsRun n envFriends envGroups unmarshalFriends unmarshalGroups friendsFirst
      with ⟨⟨fe, fl⟩, ⟨ge, gl⟩, n'⟩
    cases friendsFirst <;> cases fe <;> cases ge <;> simp [firstError]


/-- A decoded frame with a non-empty token is handled by the response branch alone. -/
theorem listenStep_token (unmarshal : String → Option RawMap) (s : ListenState)
    (payload : String) (now : Nat) (raw : RawMap) (echo : String)
    (hraw : unmarshal payload = some raw) (he : mapIndex "echo" raw = some (JVal.str echo))
    (hne : echo ≠ "") :
    listenStep unmarshal s payload now =
      match deliver s.n echo payload with
      | Outcome.ok n' => Outcome.ok { s with n := n' }
      | Outcome.blocked _ => Outcome.blocked s := by
  simp only [listenStep, hraw, he, asString, hne, ne_eq, not_false_eq_true, decide_True,
    Bool.and_self, if_true]

theorem syncLoad_syncStore_self (k : String) (v : RespChan) (m : List (String × RespChan)) :
    syncLoad k (syncStore k v m) = some v := by
  simp [syncStore, syncLoad]

theorem nextEcho_ne_empty (n : NapCatAdapter) : nextEcho n ≠ "" := by
  intro h
  have := congrArg String.data h
  simp [nextEcho] at this

/-- The deferred `Delete`: when `sendRequest` returns, its token is not in the table. -/
theorem sendRequest_token_removed (n : NapCatAdapter) (action : onebotAction) (env : ReqEnv) :
    syncLoad (nextEcho n) (sendRequest n action env).2.responseChannels = none := by
  unfold sendRequest nextEcho
  simp only [sendAction]
  cases env.writeErr with
  | some e => exact syncLoad_syncDelete_self _ _
  | none =>
    simp only
    split <;> exact syncLoad_syncDelete_self _ _

/-- The three returns of `sendRequest`: the error of a failed write, a received payload,
or the time-out error. -/
theorem sendRequest_exits (n : NapCatAdapter) (action : onebotAction) (env : ReqEnv) :
    (∃ e, env.writeErr = some e ∧ (sendRequest n action env).1 = Except.error e) ∨
    (∃ respPayload, env.writeErr = none ∧
      (sendRequest n action env).1 = Except.ok respPayload) ∨
    (env.writeErr = none ∧ (sendRequest n action env).1 =
      Except.error (Err.timedOut ("API request timed out for action: " ++ action.Action))) := by
  unfold sendRequest
  simp only [sendAction]
  cases env.writeErr with
  | some e => exact Or.inl ⟨e, rfl, rfl⟩
  | none =>
    simp only
    split <;> simp

/-- C7: whichever way `sendRequest` returns (failed write, response, time-out), its token
is no longer in the table afterwards, and a response frame carrying that token that the
reader loop handles afterwards changes nothing: no channel receives it, the table is
unchanged and no message is forwarded. -/
theorem sendRequest_deregisters (n : NapCatAdapter) (action : onebotAction) (env : ReqEnv)
    (unmarshal : String → Option RawMap) (s : ListenState) (payload : String) (now : Nat)
    (raw : RawMap) (hs : s.n = (sendRequest n action env).2)
    (hraw : unmarshal payload = some raw)
    (hecho : mapIndex "echo" raw = some (JVal.str (nextEcho n))) :
    ((∃ e, env.writeErr = some e ∧ (sendRequest n action env).1 = Except.error e) ∨
     (∃ respPayload, env.writeErr = none ∧
        (sendRequest n action env).1 = Except.ok respPayload) ∨
     (env.writeErr = none ∧ (sendRequest n action env).1 =
        Except.error (Err.timedOut ("API request timed out for action: " ++ action.Action)))) ∧
    syncLoad (nextEcho n) (sendRequest n action env).2.responseChannels = none ∧
    listenStep unmarshal s payload now = Outcome.ok s := by
  refine ⟨sendRequest_exits n action env, sendRequest_token_removed n action env, ?_⟩
  have hl : syncLoad (nextEcho n) s.n.responseChannels = none := by
    rw [hs]
    exact sendRequest_token_removed n action env
  rw [listenStep_token unmarshal s payload now raw (nextEcho n) hraw hecho (nextEcho_ne_empty n)]
  simp [deliver, hl]

/-- A request that times out, and the response that arrives after it: nothing changes. -/
theorem sendRequest_deregisters_witness :
    (sendRequest NewNapCatAdapter { Action := "get_friend_list", Params := Params.none, Echo := "" }
        { writeErr := none, arrivals := [], timerFirst := true }).1 =
      Except.error (Err.timedOut "API request timed out for action: get_friend_list") ∧
    listenStep (fun _ => some [("echo", JVal.str "req_1")])
        { n := { written := [{ Action := "get_friend_list", Params := Params.none, Echo := "req_1" }],
                 responseChannels := [], echoCounter := 1 },
          msgChan := [], closed := false } "late" 0 =
      Outcome.ok
        { n := { written := [{ Action := "get_friend_list", Params := Params.none, Echo := "req_1" }],
                 responseChannels := [], echoCounter := 1 },
          msgChan := [], closed := false } :=
  ⟨rfl,
   (sendRequest_deregisters NewNapCatAdapter
      { Action := "get_friend_list", Params := Params.none, Echo := "" }
      { writeErr := none, arrivals := [], timerFirst := true }
      (fun _ => some [("echo", JVal.str "req_1")])
      { n := { written := [{ Action := "get_friend_list", Params := Params.none, Echo := "req_1" }],
               responseChannels := [], echoCounter := 1 },
        msgChan := [], closed := false } "late" 0 _ (by decide) rfl rfl).2.2⟩

theorem deliver_fields (n : NapCatAdapter) (echo payload : String) :
    ∀ n', (deliver n echo payload = Outcome.ok n' ∨ deliver n echo payload = Outcome.blocked n') →
      n'.written = n.written ∧ n'.echoCounter = n.echoCounter := by
  intro n' h
  unfold deliver at h
  split at h
  · split at h
    · rcases h with h | h
      · cases h; exact ⟨rfl, rfl⟩
      · cases h
    · rcases h with h | h
      · cases h
      · cases h; exact ⟨rfl, rfl⟩
  · rcases h with h | h
    · cases h; exact ⟨rfl, rfl⟩
    · cases h

theorem deliverAll_fields (arrivals : List (String × String)) :
    ∀ n : NapCatAdapter, (deliverAll n arrivals).written = n.written ∧
      (deliverAll n arrivals).echoCounter = n.echoCounter := by
  induction arrivals with
  | nil => intro n; exact ⟨rfl, rfl⟩
  | cons a rest ih =>
    intro n
    obtain ⟨echo, payload⟩ := a
    unfold deliverAll
    cases hd : deliver n echo payload with
    | ok n' =>
      have := deliver_fields n echo payload n' (Or.inl hd)
      simp only
      rw [(ih n').1, (ih n').2]
      exact this
    | blocked n' => exact deliver_fields n echo payload n' (Or.inr hd)

/-- What a call of `sendRequest` does to the counter and to the connection. -/
theorem sendRequest_fields (n : NapCatAdapter) (action : onebotAction) (env : ReqEnv) :
    (sendRequest n action env).2.echoCounter = wrapInt64 (n.echoCounter + 1) ∧
    (sendRequest n action env).2.written = n.written ++ [{ action with Echo := nextEcho n }] := by
  unfold sendRequest nextEcho
  simp only [sendAction]
  cases env.writeErr with
  | some e => exact ⟨rfl, rfl⟩
  | none =>
    simp only
    split <;> simp [deliverAll_fields]

theorem deliverAll_full (arrivals : List (String × String)) :
    ∀ (n : NapCatAdapter) (echo p : String), syncLoad echo n.responseChannels = some [p] →
      syncLoad echo (deliverAll n arrivals).responseChannels = some [p] := by
  induction arrivals with
  | nil => intro n echo p h; exact h
  | cons a rest ih =>
    intro n echo p h
    obtain ⟨k, q⟩ := a
    unfold deliverAll deliver
    cases hk : syncLoad k n.responseChannels with
    | none => exact ih n echo p h
    | some ch =>
      by_cases hlen : ch.length < 1
      · simp only [hlen, if_true]
        apply ih
        have hne : echo ≠ k := by
          intro he
          rw [he, hk] at h
          simp only [Option.some.injEq] at h
          rw [h] at hlen
          simp at hlen
        simpa [syncLoad_chanPush_other k q echo _ hne] using h
      · simp only [hlen, if_false]
        exact h

theorem deliverAll_empty (arrivals : List (String × String)) :
    ∀ (n : NapCatAdapter) (echo : String), syncLoad echo n.responseChannels = some [] →
      syncLoad echo (deliverAll n arrivals).responseChannels = some [] ∨
      ∃ pre post p, arrivals = pre ++ (echo, p) :: post ∧ (∀ x ∈ pre, x.1 ≠ echo) ∧
        syncLoad echo (deliverAll n arrivals).responseChannels = some [p] := by
  induction arrivals with
  | nil => intro n echo h; exact Or.inl h
  | cons a rest ih =>
    intro n echo h
    obtain ⟨k, q⟩ := a
    by_cases hke : k = echo
    · subst hke
      refine Or.inr ⟨[], rest, q, rfl, by simp, ?_⟩
      unfold deliverAll deliver
      simp only [h, List.length_nil, Nat.lt_one_iff, if_true]
      apply deliverAll_full
      simpa using syncLoad_chanPush_self k q _ _ h
    · have hne : echo ≠ k := fun h' => hke h'.symm
      have step : ∀ n' : NapCatAdapter, syncLoad echo n'.responseChannels = some [] →
          syncLoad echo (deliverAll n' rest).responseChannels = some [] ∨
          ∃ pre post p, (k, q) :: rest = pre ++ (echo, p) :: post ∧ (∀ x ∈ pre, x.1 ≠ echo) ∧
            syncLoad echo (deliverAll n' rest).responseChannels = some [p] := by
        intro n' h'
        rcases ih n' echo h' with h1 | ⟨pre, post, p, h1, h2, h3⟩
        · exact Or.inl h1
        · refine Or.inr ⟨(k, q) :: pre, post, p, by rw [h1]; rfl, ?_, h3⟩
          intro x hx
          rcases List.mem_cons.1 hx with hx | hx
          · rw [hx]; exact hke
          · exact h2 x hx
      unfold deliverAll deliver
      cases hk : syncLoad k n.responseChannels with
      | none => exact step n h
      | some ch =>
        by_cases hlen : ch.length < 1
        · simp only [hlen, if_true]
          apply step
          simpa [syncLoad_chanPush_other k q echo _ hne] using h
        · simp only [hlen, if_false]
          exact Or.inl h

/-- A payload returned by `sendRequest` is the payload of the first response, among those
dispatched while the call waited, that carries the token of the call. -/
theorem sendRequest_payload (n : NapCatAdapter) (action : onebotAction) (env : ReqEnv)
    (p : String) (h : (sendRequest n action env).1 = Except.ok p) :
    ∃ pre post, env.arrivals = pre ++ (nextEcho n, p) :: post ∧
      ∀ x ∈ pre, x.1 ≠ nextEcho n := by
  unfold sendRequest at h
  simp only [sendAction] at h
  cases hw : env.writeErr with
  | some e => simp [hw] at h
  | none =>
    simp only [hw] at h
    have hreg := deliverAll_empty env.arrivals
      { written := n.written ++ [{ action with Echo := nextEcho n }],
        responseChannels := syncStore (nextEcho n) [] n.responseChannels,
        echoCounter := wrapInt64 (n.echoCounter + 1) } (nextEcho n)
      (syncLoad_syncStore_self _ _ _)
    simp only [nextEcho] at hreg
    split at h
    · rename_i respPayload tl hload htimer
      simp only [Except.ok.injEq] at h
      subst h
      rcases hreg with h1 | ⟨pre, post, q, h1, h2, h3⟩
      · rw [h1] at hload
        simp at hload
      · rw [h3] at hload
        simp only [Option.some.injEq, List.cons.injEq] at hload
        exact ⟨pre, post, by rw [h1, hload.1]; rfl, h2⟩
    · simp at h

/-- C8, as stated, fails: after the reader loop has dispatched a response for the
registered token `req_1`, the entry is still in the table, holding the payload, and a
second response with that token is not dropped: the reader parks in its send. -/
theorem listenStep_completion_counterexample :
    listenStep (fun _ => some [("echo", JVal.str "req_1")])
        { n := { written := [], responseChannels := [("req_1", [])], echoCounter := 1 },
          msgChan := [], closed := false } "first" 0 =
      Outcome.ok
        { n := { written := [], responseChannels := [("req_1", ["first"])], echoCounter := 1 },
          msgChan := [], closed := false } ∧
    syncLoad "req_1" [("req_1", ["first"])] ≠ none ∧
    listenStep (fun _ => some [("echo", JVal.str "req_1")])
        { n := { written := [], responseChannels := [("req_1", ["first"])], echoCounter := 1 },
          msgChan := [], closed := false } "second" 0 =
      Outcome.blocked
        { n := { written := [], responseChannels := [("req_1", ["first"])], echoCounter := 1 },
          msgChan := [], closed := false } := by
  decide

/-- C8, amended: when the reader loop dispatches a response whose token has an entry with an
empty channel, the payload is placed in that channel and the entry stays in the table, so
a second response with the same token is sent to the same channel and parks the reader
while the first payload is buffered. The entry is removed by `sendRequest` when it
returns, and the payload `sendRequest` returns is that of the first response carrying
its token. -/
theorem listenStep_completion (unmarshal : String → Option RawMap) (s : ListenState)
    (payload : String) (now : Nat) (raw : RawMap) (echo : String)
    (hraw : unmarshal payload = some raw)
    (hecho : mapIndex "echo" raw = some (JVal.str echo)) (hne : echo ≠ "")
    (hreg : syncLoad echo s.n.responseChannels = some []) :
    (∃ s', listenStep unmarshal s payload now = Outcome.ok s' ∧
      syncLoad echo s'.n.responseChannels = some [payload] ∧
      s'.msgChan = s.msgChan ∧
      (∀ k : String, k ≠ echo →
        syncLoad k s'.n.responseChannels = syncLoad k s.n.responseChannels) ∧
      ∀ (payload2 : String) (now2 : Nat) (raw2 : RawMap), unmarshal payload2 = some raw2 →
        mapIndex "echo" raw2 = some (JVal.str echo) →
        listenStep unmarshal s' payload2 now2 = Outcome.blocked s') ∧
    (∀ (n : NapCatAdapter) (action : onebotAction) (env : ReqEnv),
      syncLoad (nextEcho n) (sendRequest n action env).2.responseChannels = none ∧
      ∀ p : String, (sendRequest n action env).1 = Except.ok p →
        ∃ pre post, env.arrivals = pre ++ (nextEcho n, p) :: post ∧
          ∀ x ∈ pre, x.1 ≠ nextEcho n) := by
  refine ⟨⟨{ s with n := { s.n with
      responseChannels := chanPush echo payload s.n.responseChannels } }, ?_, ?_, rfl, ?_, ?_⟩,
    fun n action env => ⟨sendRequest_token_removed n action env,
      fun p hp => sendRequest_payload n action env p hp⟩⟩
  · rw [listenStep_token unmarshal s payload now raw echo hraw hecho hne]
    simp [deliver, hreg]
  · simpa using syncLoad_chanPush_self echo payload _ _ hreg
  · intro k hk
    exact syncLoad_chanPush_other echo payload k _ hk
  · intro payload2 now2 raw2 hraw2 hecho2
    rw [listenStep_token unmarshal _ payload2 now2 raw2 echo hraw2 hecho2 hne]
    have := syncLoad_chanPush_self echo payload _ _ hreg
    simp [deliver, this]

/-- The first response for a registered token is buffered and leaves the entry in place. -/
theorem listenStep_completion_witness :
    ∃ s', listenStep (fun _ => some [("echo", JVal.str "req_7")])
        { n := { written := [], responseChannels := [("req_7", [])], echoCounter := 7 },
          msgChan := [], closed := false } "reply" 3 = Outcome.ok s' ∧
      syncLoad "req_7" s'.n.responseChannels = some ["reply"] :=
  match (listenStep_completion (fun _ => some [("echo", JVal.str "req_7")])
      { n := { written := [], responseChannels := [("req_7", [])], echoCounter := 7 },
        msgChan := [], closed := false } "reply" 3 _ "req_7" rfl rfl (by decide) rfl).1 with
  | ⟨s', h1, h2, _⟩ => ⟨s', h1, h2⟩

/-! ## Request tokens -/

theorem wrapInt64_range (x : Int) : minInt64 ≤ wrapInt64 x ∧ wrapInt64 x ≤ maxInt64 := by
  unfold wrapInt64 minInt64 maxInt64
  omega

theorem wrapInt64_add (x y : Int) : wrapInt64 (wrapInt64 x + y) = wrapInt64 (x + y) := by
  unfold wrapInt64
  omega

theorem wrapInt64_id (x : Int) (h : minInt64 ≤ x ∧ x ≤ maxInt64) : wrapInt64 x = x := by
  unfold wrapInt64
  unfold minInt64 maxInt64 at h
  omega

theorem token_injective (a b : Int) (ha : minInt64 ≤ a ∧ a ≤ maxInt64)
    (hb : minInt64 ≤ b ∧ b ≤ maxInt64) (h : "req_" ++ FormatInt a = "req_" ++ FormatInt b) :
    a = b := by
  apply FormatInt_injective_on a b ha hb
  have := congrArg String.data h
  simp only [String.data_append, List.append_cancel_left_eq] at this
  exact String.ext this

theorem requestTokens_eq (calls : List (onebotAction × ReqEnv)) :
    ∀ n : NapCatAdapter, requestTokens n calls =
      (List.range calls.length).map
        fun k : Nat => "req_" ++ FormatInt (wrapInt64 (n.echoCounter + 1 + (k : Int))) := by
  induction calls with
  | nil => intro n; rfl
  | cons c rest ih =>
    intro n
    obtain ⟨action, env⟩ := c
    simp only [requestTokens, List.length_cons, List.range_succ_eq_map, List.map_cons,
      List.map_map, ih, (sendRequest_fields n action env).1, nextEcho]
    refine congrArg₂ _ (by simp) (List.map_congr_left fun k _ => ?_)
    simp only [Function.comp, Nat.succ_eq_add_one, Nat.cast_add, Nat.cast_one]
    rw [add_assoc (wrapInt64 (n.echoCounter + 1)), wrapInt64_add]
    congr 3
    omega

/-- C9: a call of `sendRequest` advances the counter by one (with `int64` wrap-around, so by
exactly one below the maximum), its token is `req_` followed by the decimal form of the
new counter, and that token is the `Echo` of the frame it writes; the tokens of fewer
than 2^64 successive calls on one adapter are pairwise different. -/
theorem requestTokens_nodup (n : NapCatAdapter) (calls : List (onebotAction × ReqEnv))
    (h : calls.length < 18446744073709551616) :
    (∀ (n' : NapCatAdapter) (action : onebotAction) (env : ReqEnv),
      (sendRequest n' action env).2.echoCounter = wrapInt64 (n'.echoCounter + 1) ∧
      (minInt64 ≤ n'.echoCounter ∧ n'.echoCounter < maxInt64 →
        (sendRequest n' action env).2.echoCounter = n'.echoCounter + 1) ∧
      nextEcho n' = "req_" ++ FormatInt (sendRequest n' action env).2.echoCounter ∧
      (sendRequest n' action env).2.written =
        n'.written ++ [{ action with Echo := nextEcho n' }]) ∧
    (requestTokens n calls).Nodup := by
  constructor
  · intro n' action env
    have hf := sendRequest_fields n' action env
    refine ⟨hf.1, fun hr => ?_, ?_, hf.2⟩
    · rw [hf.1]
      apply wrapInt64_id
      unfold minInt64 maxInt64 at *
      omega
    · rw [hf.1]
      rfl
  · rw [requestTokens_eq]
    refine List.Nodup.map_on ?_ (List.nodup_range _)
    intro x hx y hy hxy
    have hx' := List.mem_range.1 hx
    have hy' := List.mem_range.1 hy
    have := token_injective _ _ (wrapInt64_range _) (wrapInt64_range _) hxy
    unfold wrapInt64 at this
    omega

/-- Two successive requests on a fresh adapter get the tokens `req_1` and `req_2`. -/
theorem requestTokens_nodup_witness :
    (requestTokens NewNapCatAdapter
      [({ Action := "get_friend_list", Params := Params.none, Echo := "" },
        { writeErr := none, arrivals := [], timerFirst := true }),
       ({ Action := "get_group_list", Params := Params.none, Echo := "" },
        { writeErr := none, arrivals := [], timerFirst := true })]).Nodup ∧
    requestTokens NewNapCatAdapter
      [({ Action := "get_friend_list", Params := Params.none, Echo := "" },
        { writeErr := none, arrivals := [], timerFirst := true }),
       ({ Action := "get_group_list", Params := Params.none, Echo := "" },
        { writeErr := none, arrivals := [], timerFirst := true })] = ["req_1", "req_2"] :=
  ⟨(requestTokens_nodup NewNapCatAdapter _ (by decide)).2, by decide⟩

/-! ## Events with missing fields -/

/-- C10, as stated, fails: a private event without `raw_message` is forwarded with empty
content, and a group event without `user_id` is forwarded with an empty sender id. -/
theorem handleMessageEvent_missing_field_counterexample :
    handleMessageEvent [("message_type", JVal.str "private"), ("user_id", JVal.num 123)] [] 0 =
      [{ ChatID := "123", ChatType := "private", SenderID := "123", SenderName := "",
         Content := "", Time := 0 }] ∧
    handleMessageEvent
        [("message_type", JVal.str "group"), ("group_id", JVal.num 456),
          ("raw_message", JVal.str "hey")] [] 0 =
      [{ ChatID := "456", ChatType := "group", SenderID := "", SenderName := "",
         Content := "hey", Time := 0 }] := by
  decide

/-- C10, amended: an event without a string `message_type` forwards nothing, and so does an
event without a numeric `user_id` whose `message_type` is not `"group"`. A missing
`raw_message` is no ground for rejection: with a numeric `user_id` and a `message_type`
other than `"group"` the message is forwarded, with whatever content was read (the empty
string when `raw_message` is missing). -/
theorem handleMessageEvent_unroutable (raw : RawMap) (msgChan : List Message) (now : Nat) :
    ((asString (mapIndex "message_type" raw)).2 = false →
      handleMessageEvent raw msgChan now = msgChan) ∧
    ((asFloat64 (mapIndex "user_id" raw)).2 = false →
      (asString (mapIndex "message_type" raw)).1 ≠ "group" →
      handleMessageEvent raw msgChan now = msgChan) ∧
    (∀ (u : Rat) (t : String), mapIndex "user_id" raw = some (JVal.num u) →
      mapIndex "message_type" raw = some (JVal.str t) → t ≠ "group" →
      ((asString (mapIndex "raw_message" raw)).2 = false →
        (asString (mapIndex "raw_message" raw)).1 = "") ∧
      handleMessageEvent raw msgChan now = msgChan ++
        [{ ChatID := FormatInt (float64ToInt64 u), ChatType := t,
           SenderID := FormatInt (float64ToInt64 u),
           SenderName := (asString (mapIndex "nickname" (asMap (mapIndex "sender" raw)).1)).1,
           Content := (asString (mapIndex "raw_message" raw)).1, Time := now }]) := by
  refine ⟨fun h => ?_, fun hu ht => ?_, fun u t hu ht hne => ⟨fun h => ?_, ?_⟩⟩
  · simp [handleMessageEvent, buildMessage_eq, h]
  · simp [handleMessageEvent, buildMessage_eq, hu, ht]
  · exact asString_snd_false _ _ (Prod.ext rfl h)
  · have hfmt := FormatInt_ne_empty (float64ToInt64 u)
    simp [handleMessageEvent, buildMessage_eq, hu, ht, hne, asString, asFloat64, hfmt]

/-! ## The chat id of a forwarded message -/

/-- C11: a message that `handleMessageEvent` sends has a non-empty chat id, and an event
whose derived chat id is empty forwards nothing; the derived chat id is empty exactly for
an event without a string `message_type`, a group event without a numeric `group_id`, and
an event of another type without a numeric `user_id`. -/
theorem handleMessageEvent_chatID (raw : RawMap) (msgChan : List Message) (now : Nat) :
    (handleMessageEvent raw msgChan now = msgChan ∨
      handleMessageEvent raw msgChan now = msgChan ++ [buildMessage raw now] ∧
        (buildMessage raw now).ChatID ≠ "") ∧
    ((buildMessage raw now).ChatID = "" → handleMessageEvent raw msgChan now = msgChan) ∧
    ((buildMessage raw now).ChatID = "" ↔
      (asString (mapIndex "message_type" raw)).2 = false ∨
      ((asString (mapIndex "message_type" raw)).1 = "group" ∧
        (asFloat64 (mapIndex "group_id" raw)).2 = false) ∨
      ((asString (mapIndex "message_type" raw)).1 ≠ "group" ∧
        (asFloat64 (mapIndex "user_id" raw)).2 = false)) := by
  refine ⟨?_, ?_, ?_⟩
  · unfold handleMessageEvent
    by_cases h : (buildMessage raw now).ChatID = ""
    · exact Or.inl (by simp [h])
    · exact Or.inr ⟨by simp [h], h⟩
  · intro h
    simp [handleMessageEvent, h]
  · rw [buildMessage_eq]
    simp only
    rcases asString (mapIndex "message_type" raw) with ⟨t, _ | _⟩ <;>
    rcases asFloat64 (mapIndex "group_id" raw) with ⟨g, _ | _⟩ <;>
    rcases asFloat64 (mapIndex "user_id" raw) with ⟨u, _ | _⟩ <;>
    by_cases ht : t = "group" <;>
    simp [ht, FormatInt_ne_empty]

/-! ## The caches of the daemon -/

theorem strMapGet_erase_self (k : String) (m : StrMap) : strMapGet k (strMapErase k m) = none := by
  induction m with
  | nil => rfl
  | cons e rest ih =>
    obtain ⟨k', v⟩ := e
    by_cases h : k' = k <;> simp [strMapErase, strMapGet, h, ih]

theorem strMapGet_erase_other (k id : String) (m : StrMap) (h : k ≠ id) :
    strMapGet id (strMapErase k m) = strMapGet id m := by
  induction m with
  | nil => rfl
  | cons e rest ih =>
    obtain ⟨k', v⟩ := e
    by_cases h1 : k' = k
    · subst h1
      simp only [strMapErase, strMapGet, if_true, h, if_false, ih]
    · by_cases h2 : k' = id
      · subst h2
        simp only [strMapErase, h1, if_false, strMapGet, if_true]
      · simp only [strMapErase, h1, if_false, strMapGet, h2, ih]

theorem strMapGet_set (k v id : String) (m : StrMap) :
    strMapGet id (strMapSet k v m) = if k = id then some v else strMapGet id m := by
  by_cases h : k = id
  · simp [strMapSet, strMapGet, h]
  · simp [strMapSet, strMapGet, h, strMapGet_erase_other k id m h]

/-- One loop of a refresh: afterwards a key is present exactly when it was present before
or is the id of a listed chat, in both caches. -/
theorem foldl_cache_keys (ty : String) (l : List ChatInfo) :
    ∀ (st : AppState) (id : String),
      ((strMapGet id (l.foldl (fun st c =>
          { st with ChatTypes := strMapSet c.ID ty st.ChatTypes,
                    ChatNames := strMapSet c.ID c.Name st.ChatNames }) st).ChatTypes).isSome ↔
        (strMapGet id st.ChatTypes).isSome ∨ id ∈ l.map ChatInfo.ID) ∧
      ((strMapGet id (l.foldl (fun st c =>
          { st with ChatTypes := strMapSet c.ID ty st.ChatTypes,
                    ChatNames := strMapSet c.ID c.Name st.ChatNames }) st).ChatNames).isSome ↔
        (strMapGet id st.ChatNames).isSome ∨ id ∈ l.map ChatInfo.ID) ∧
      (l.foldl (fun st c =>
          { st with ChatTypes := strMapSet c.ID ty st.ChatTypes,
                    ChatNames := strMapSet c.ID c.Name st.ChatNames }) st).ActiveChatID =
        st.ActiveChatID := by
  induction l with
  | nil => intro st id; simp
  | cons c rest ih =>
    intro st id
    simp only [List.foldl_cons, List.map_cons, List.mem_cons]
    obtain ⟨h1, h2, h3⟩ := ih
      { st with ChatTypes := strMapSet c.ID ty st.ChatTypes,
                ChatNames := strMapSet c.ID c.Name st.ChatNames } id
    refine ⟨?_, ?_, h3⟩
    · rw [h1, strMapGet_set]
      by_cases h : c.ID = id
      · simp [h]
      · have h' : ¬ id = c.ID := fun e => h e.symm
        simp [h, h']
    · rw [h2, strMapGet_set]
      by_cases h : c.ID = id
      · simp [h]
      · have h' : ¬ id = c.ID := fun e => h e.symm
        simp [h, h']

/-- After the two loops a key is present exactly when it was present before or is the id
of a fetched friend or group. -/
theorem fillCaches_keys (st : AppState) (friends groups : List ChatInfo) (id : String) :
    ((strMapGet id (fillCaches st friends groups).ChatTypes).isSome ↔
      (strMapGet id st.ChatTypes).isSome ∨ id ∈ (friends ++ groups).map ChatInfo.ID) ∧
    ((strMapGet id (fillCaches st friends groups).ChatNames).isSome ↔
      (strMapGet id st.ChatNames).isSome ∨ id ∈ (friends ++ groups).map ChatInfo.ID) ∧
    (fillCaches st friends groups).ActiveChatID = st.ActiveChatID := by
  unfold fillCaches
  obtain ⟨f1, f2, f3⟩ := foldl_cache_keys "private" friends st id
  obtain ⟨g1, g2, g3⟩ := foldl_cache_keys "group" groups
    (friends.foldl (fun st friend =>
      { st with ChatTypes := strMapSet friend.ID "private" st.ChatTypes,
                ChatNames := strMapSet friend.ID friend.Name st.ChatNames }) st) id
  refine ⟨?_, ?_, by rw [g3, f3]⟩
  · rw [g1, f1, List.map_append, List.mem_append, or_assoc]
  · rw [g2, f2, List.map_append, List.mem_append, or_assoc]

/-- The handler of `/get_chats` replaces both caches: after a successful fetch they hold
exactly the ids of the fetched friends and groups, whatever they held before. -/
theorem getChatsHandler_replaces (st : AppState) (friends groups : List ChatInfo) (id : String) :
    ((strMapGet id (getChatsHandler st (friends, groups, none)).1.ChatTypes).isSome ↔
      id ∈ (friends ++ groups).map ChatInfo.ID) ∧
    ((strMapGet id (getChatsHandler st (friends, groups, none)).1.ChatNames).isSome ↔
      id ∈ (friends ++ groups).map ChatInfo.ID) := by
  obtain ⟨h1, h2, _⟩ := fillCaches_keys { st with ChatTypes := [], ChatNames := [] } friends groups id
  constructor
  · simpa [getChatsHandler, strMapGet] using h1
  · simpa [getChatsHandler, strMapGet] using h2

/-- The first successful fetch ends the loop of `populateCaches`, which then adds the
fetched ids to the keys the caches already had. -/
theorem populateCaches_keeps (st : AppState) (friends groups : List ChatInfo)
    (rest : List (List ChatInfo × List ChatInfo × Option Err)) (id : String) :
    ∃ st', populateCaches st ((friends, groups, none) :: rest) = some st' ∧
      ((strMapGet id st'.ChatTypes).isSome ↔
        (strMapGet id st.ChatTypes).isSome ∨ id ∈ (friends ++ groups).map ChatInfo.ID) ∧
      ((strMapGet id st'.ChatNames).isSome ↔
        (strMapGet id st.ChatNames).isSome ∨ id ∈ (friends ++ groups).map ChatInfo.ID) := by
  obtain ⟨h1, h2, _⟩ := fillCaches_keys st friends groups id
  exact ⟨fillCaches st friends groups, rfl, h1, h2⟩

/-- C12 fails on `populateCaches`: with the caches holding friend `1` (put there by a
`/get_chats` request that was served first), a fetch that returns only friend `2` leaves
the entries of `1` in both caches, although `1` is not among the fetched ids. -/
theorem populateCaches_merges :
    populateCaches
        (getChatsHandler { ActiveChatID := "", ChatTypes := [], ChatNames := [] }
          ([({ ID := "1", Name := "Alice", Type_ := "private", LatestMsg := "" } : ChatInfo)],
           [], none)).1
        [([], [], some (Err.timedOut "API request timed out for action: get_friend_list")),
         ([({ ID := "2", Name := "Bob", Type_ := "private", LatestMsg := "" } : ChatInfo)],
          [], none)] =
      some { ActiveChatID := "",
             ChatTypes := [("2", "private"), ("1", "private")],
             ChatNames := [("2", "Bob"), ("1", "Alice")] } ∧
    AppState.GetChatName
        { ActiveChatID := "",
          ChatTypes := [("2", "private"), ("1", "private")],
          ChatNames := [("2", "Bob"), ("1", "Alice")] } "1" = "Alice" ∧
    "1" ∉ ([({ ID := "2", Name := "Bob", Type_ := "private", LatestMsg := "" } : ChatInfo)] ++
      ([] : List ChatInfo)).map ChatInfo.ID := by
  decide

/-! ## Switching the active chat -/

/-- C13, as stated, fails: after `/set_active_chat` for the id `42`, which the name cache
does not know, the name cache is still empty and `GetChatName` returns the empty string. -/
theorem setActiveChatHandler_counterexample :
    (setActiveChatHandler { ActiveChatID := "", ChatTypes := [], ChatNames := [] } "42" "").state =
      { ActiveChatID := "42", ChatTypes := [], ChatNames := [] } ∧
    AppState.GetChatName
      (setActiveChatHandler { ActiveChatID := "", ChatTypes := [], ChatNames := [] } "42" "").state
      "42" = "" := by
  decide

/-- C13, amended: for a non-empty id the handler of `/set_active_chat` sets the active chat
id to that id and leaves both caches as they were, so no name is inserted and
`GetChatName` and `GetChatType` answer as before for every id; the id stands in for a
missing name only in the notification sent to the TUI. -/
theorem setActiveChatHandler_effect (state : AppState) (id name : String) (hid : id ≠ "") :
    (setActiveChatHandler state id name).state = { state with ActiveChatID := id } ∧
    (∀ k : String,
      (setActiveChatHandler state id name).state.GetChatName k = state.GetChatName k ∧
      (setActiveChatHandler state id name).state.GetChatType k = state.GetChatType k) ∧
    (setActiveChatHandler state id name).sent = some (id, if name = "" then id else name) ∧
    (setActiveChatHandler state id name).status = 200 := by
  simp [setActiveChatHandler, hid, AppState.GetChatName, AppState.GetChatType]

/-- Switching to a chat the caches know keeps its cached name. -/
theorem setActiveChatHandler_effect_witness :
    (setActiveChatHandler
        { ActiveChatID := "", ChatTypes := [("7", "group")], ChatNames := [("7", "Team")] }
        "7" "").state =
      { ActiveChatID := "7", ChatTypes := [("7", "group")], ChatNames := [("7", "Team")] } ∧
    (setActiveChatHandler
        { ActiveChatID := "", ChatTypes := [("7", "group")], ChatNames := [("7", "Team")] }
        "7" "").sent = some ("7", "7") :=
  ⟨(setActiveChatHandler_effect
      { ActiveChatID := "", ChatTypes := [("7", "group")], ChatNames := [("7", "Team")] }
      "7" "" (by decide)).1,
   (setActiveChatHandler_effect
      { ActiveChatID := "", ChatTypes := [("7", "group")], ChatNames := [("7", "Team")] }
      "7" "" (by decide)).2.2.1⟩

/-! ## Chat ids that do not parse -/

/-- No overflow can occur while at most 19 digits are read, so the first character that is
not a digit ends the loop with a syntax error. -/
theorem parseUintLoop_invalid (c : Char) (post : List Char) (hc : ¬ ('0' ≤ c ∧ c ≤ '9')) :
    ∀ (pre : List Char) (n k : Nat), n < 10 ^ k → k + pre.length ≤ 19 →
      (∀ d ∈ pre, '0' ≤ d ∧ d ≤ '9') →
      parseUintLoop (pre ++ c :: post) n = (0, some NumError.invalid) := by
  intro pre
  induction pre with
  | nil =>
    intro n k _ _ _
    simp [parseUintLoop, hc]
  | cons d ds ih =>
    intro n k hn hk hd
    have hdig := hd d (List.mem_cons_self _ _)
    have hk18 : k ≤ 18 := by simp only [List.length_cons] at hk; omega
    have hpow : 10 ^ k ≤ 10 ^ 18 := Nat.pow_le_pow_right (by decide) hk18
    have hle : d.toNat - '0'.toNat ≤ 9 := by
      have h9 : d.toNat ≤ '9'.toNat := hdig.2
      have : '9'.toNat = 57 := by decide
      have : '0'.toNat = 48 := by decide
      omega
    have hn1 : n * 10 + (d.toNat - '0'.toNat) < 10 ^ (k + 1) := by
      rw [Nat.pow_succ]
      omega
    have h1 : ¬ (n ≥ maxUint64 / 10 + 1) := by
      simp only [maxUint64]
      norm_num at hpow ⊢
      omega
    have hpow' : 10 ^ (k + 1) ≤ 10 ^ 19 := Nat.pow_le_pow_right (by decide) (by omega)
    have h2 : ¬ (n * 10 + (d.toNat - '0'.toNat) > maxUint64) := by
      simp only [maxUint64]
      norm_num at hpow' ⊢
      omega
    simp only [List.cons_append, parseUintLoop, hdig, and_self, if_true, h1, if_false, h2]
    exact ih _ (k + 1) hn1 (by simp only [List.length_cons] at hk; omega)
      (fun x hx => hd x (List.mem_cons_of_mem _ hx))

theorem ParseUint_invalid (rest : List Char)
    (h : rest = [] ∨ ∃ pre c post, rest = pre ++ c :: post ∧
      (∀ d ∈ pre, '0' ≤ d ∧ d ≤ '9') ∧ pre.length ≤ 19 ∧ ¬ ('0' ≤ c ∧ c ≤ '9')) :
    ParseUint rest = (0, some NumError.invalid) := by
  rcases h with h | ⟨pre, c, post, h, hd, hl, hc⟩
  · subst h
    rfl
  · have := parseUintLoop_invalid c post hc pre 0 0 (by decide) (by omega) hd
    rw [← h] at this
    unfold ParseUint
    split
    · rfl
    · exact this

theorem parseIntSigned_invalid (neg : Bool) (rest : List Char)
    (h : ParseUint rest = (0, some NumError.invalid)) :
    parseIntSigned neg rest = (0, some NumError.invalid) := by
  simp [parseIntSigned, h]

theorem parseIntSigned_zero (neg : Bool) (rest : List Char)
    (h : (parseIntSigned neg rest).2 = some NumError.invalid) : (parseIntSigned neg rest).1 = 0 := by
  unfold parseIntSigned at h ⊢
  rcases hp : ParseUint rest with ⟨un, _ | _ | _⟩
  · simp only [hp] at h
    split_ifs at h <;> simp at h
  · rfl
  · simp only [hp] at h
    split_ifs at h <;> simp at h

/-- A syntax error of `ParseInt` comes with the value 0. -/
theorem ParseInt_invalid_zero (s : String) (h : (ParseInt s).2 = some NumError.invalid) :
    (ParseInt s).1 = 0 := by
  unfold ParseInt at h ⊢
  split
  · rfl
  · exact parseIntSigned_zero _ _ (by simpa [*] using h)
  · exact parseIntSigned_zero _ _ (by simpa [*] using h)
  · exact parseIntSigned_zero _ _ (by simpa [*] using h)

/-- A chat id that is empty, a lone sign, or has, after an optional sign, a character that
is not a digit behind at most 19 digits, is a syntax error for `ParseInt`. -/
theorem ParseInt_invalid (s : String) (rest : List Char)
    (hs : s.data = '+' :: rest ∨ s.data = '-' :: rest ∨
      (s.data = rest ∧ ∀ r, rest ≠ '+' :: r ∧ rest ≠ '-' :: r))
    (h : rest = [] ∨ ∃ pre c post, rest = pre ++ c :: post ∧
      (∀ d ∈ pre, '0' ≤ d ∧ d ≤ '9') ∧ pre.length ≤ 19 ∧ ¬ ('0' ≤ c ∧ c ≤ '9')) :
    ParseInt s = (0, some NumError.invalid) := by
  have hp := ParseUint_invalid rest h
  unfold ParseInt
  rcases hs with hs | hs | ⟨hs, hr⟩
  · rw [hs]
    exact parseIntSigned_invalid false rest hp
  · rw [hs]
    exact parseIntSigned_invalid true rest hp
  · rw [hs]
    split
    · rfl
    · rename_i r
      exact absurd rfl (hr r).1
    · rename_i r
      exact absurd rfl (hr r).2
    · exact parseIntSigned_invalid false rest hp

/-- C14, as stated, fails: the chat id `99999999999999999999x` is not a decimal integer, but
the digits before the `x` already overflow, `ParseInt` returns the clamped bound with a
range error, and the frame carries `group_id` 9223372036854775807, not 0. -/
theorem SendMessage_target_counterexample :
    ParseInt "99999999999999999999x" = (9223372036854775807, some NumError.outOfRange) ∧
    SendMessage NewNapCatAdapter "99999999999999999999x" "group" "hi" none =
      (none, { written := [{ Action := "send_group_msg",
                             Params := Params.group 9223372036854775807 "hi",
                             Echo := "send_msg_99999999999999999999x" }],
               responseChannels := [], echoCounter := 0 }) := by
  decide

/-- C14, amended: `SendMessage` never rejects a chat id: for every chat id, chat type and
text it hands exactly one frame to the connection and returns the error of that write
and no other. The numeric target (`group_id` for the chat type `"group"`, `user_id`
otherwise) is the value of `ParseInt`, which is 0 whenever `ParseInt` reports a syntax
error, as it does for the empty string, a lone sign, and every chat id in which, after
an optional sign, a character that is not a decimal digit follows at most 19 digits. -/
theorem SendMessage_never_rejects (n : NapCatAdapter) (chatID chatType message : String)
    (writeErr : Option Err) :
    SendMessage n chatID chatType message writeErr =
      (writeErr, { n with written := n.written ++
        [{ Action := if chatType = "group" then "send_group_msg" else "send_private_msg",
           Params :=
             if chatType = "group" then Params.group (ParseInt chatID).1 message
             else Params.priv (ParseInt chatID).1 message,
           Echo := "send_msg_" ++ chatID }] }) ∧
    ((ParseInt chatID).2 = some NumError.invalid → (ParseInt chatID).1 = 0) ∧
    (∀ rest : List Char,
      (chatID.data = '+' :: rest ∨ chatID.data = '-' :: rest ∨
        (chatID.data = rest ∧ ∀ r, rest ≠ '+' :: r ∧ rest ≠ '-' :: r)) →
      (rest = [] ∨ ∃ pre c post, rest = pre ++ c :: post ∧
        (∀ d ∈ pre, '0' ≤ d ∧ d ≤ '9') ∧ pre.length ≤ 19 ∧ ¬ ('0' ≤ c ∧ c ≤ '9')) →
      ParseInt chatID = (0, some NumError.invalid)) := by
  refine ⟨?_, ParseInt_invalid_zero chatID, fun rest hs h => ParseInt_invalid chatID rest hs h⟩
  by_cases hg : chatType = "group" <;> simp [SendMessage, sendAction, hg]

/-- The chat ids `12a` and the empty string are sent with the target id 0. -/
theorem SendMessage_never_rejects_witness :
    ParseInt "12a" = (0, some NumError.invalid) ∧
    SendMessage NewNapCatAdapter "" "group" "hi" none =
      (none, { written := [{ Action := "send_group_msg", Params := Params.group 0 "hi",
                             Echo := "send_msg_" }],
               responseChannels := [], echoCounter := 0 }) :=
  ⟨(SendMessage_never_rejects NewNapCatAdapter "12a" "private" "hi" none).2.2
      ['1', '2', 'a']
      (Or.inr (Or.inr ⟨rfl, fun r => ⟨by simp, by simp⟩⟩))
      (Or.inr ⟨['1', '2'], 'a', [], rfl, by decide, by decide, by decide⟩),
   (SendMessage_never_rejects NewNapCatAdapter "" "group" "hi" none).1⟩

end OnebotTui
